import Mathlib

/-!
Shallow embedding of the `geopackage` NodeJS library (DenisCarriere/geopackage).

The library wraps a single SQLite connection and exposes five operations:
`tables` (schema bootstrap), `update` (metadata reseed), `save`, `delete`
and `findOne` on the `tiles` table.  We model the database as explicit
state: each of the five tables is a list of typed rows kept in insertion
order (SQLite rowid order for tables that are only ever appended to), and
the memoized `this._table` flag of the `GeoPackage` instance is a Boolean
field of the state.

Statement-execution errors of the underlying engine are an environment
input: every operation takes an explicit error oracle saying which of its
statements the engine reports an error for.  Per the source (`runSQL` /
`getSQL` in src/index.js) an errored statement is logged and has no effect
on the database, and execution proceeds; the promise always resolves.

External leaf dependencies (the `global-mercator` geodesic utility and the
`moment` timestamp) are passed in as explicit function/value parameters:
`bboxToMeters`, `resolution`, and `now`.
-/

namespace GeoPackage

/-- Byte payload of a tile image (`Buffer` contents). -/
abbrev Bytes := List Nat

/-- Tile triple `[x, y, z]` as passed to `save` / `delete` / `findOne`. -/
abbrev Tile := Int × Int × Int

/-- Bounding box `[west, south, east, north]` (also used for meters). -/
structure BBox where
  west : ℚ
  south : ℚ
  east : ℚ
  north : ℚ
deriving DecidableEq, Repr

/-- Row of the `tiles` table, in the column order of the INSERT in
`save`: `(tile_column, tile_row, zoom_level, tile_data)`. -/
structure TileRow where
  tile_column : Int
  tile_row : Int
  zoom_level : Int
  tile_data : Bytes
deriving DecidableEq, Repr

/-- Row of `gpkg_spatial_ref_sys`. -/
structure SrsRow where
  srs_name : String
  srs_id : Int
  organization : String
  organization_coordsys_id : Int
  definition : String
  srs_descr : String
deriving DecidableEq, Repr

/-- Row of `gpkg_contents`. -/
structure ContentsRow where
  table_name : String
  data_type : String
  identifier : String
  descr : String
  last_change : String
  min_x : ℚ
  min_y : ℚ
  max_x : ℚ
  max_y : ℚ
  srs_id : Int
deriving DecidableEq, Repr

/-- Row of `gpkg_tile_matrix`. -/
structure TileMatrixRow where
  table_name : String
  zoom_level : Nat
  matrix_width : Nat
  matrix_height : Nat
  tile_width : Nat
  tile_height : Nat
  pixel_x_size : ℚ
  pixel_y_size : ℚ
deriving DecidableEq, Repr

/-- Row of `gpkg_tile_matrix_set`. -/
structure TileMatrixSetRow where
  table_name : String
  srs_id : Int
  min_x : ℚ
  min_y : ℚ
  max_x : ℚ
  max_y : ℚ
deriving DecidableEq, Repr

/-- Whole observable state: the five tables of the container plus the
instance's memoized `this._table` flag. -/
structure Store where
  existingTables : List String
  srs : List SrsRow
  contents : List ContentsRow
  tile_matrix : List TileMatrixRow
  tile_matrix_set : List TileMatrixSetRow
  tiles : List TileRow
  tableFlag : Bool
deriving DecidableEq, Repr

/-- A freshly constructed store over a new file: empty database, flag
initialized to false by the constructor. -/
def emptyStore : Store :=
  { existingTables := [], srs := [], contents := [], tile_matrix := []
    tile_matrix_set := [], tiles := [], tableFlag := false }

/-- Modelled from the spec: the five schema statements are
CREATE-TABLE-IF-NOT-EXISTS (the `.sql` schema files are not under src/):
creating an existing table is a no-op and not an error. -/
def createTable (s : Store) (n : String) : Store :=
  if n ∈ s.existingTables then s
  else { s with existingTables := s.existingTables ++ [n] }

/-- One schema statement of `tables`: statement `i` errors iff `E i`; an
errored statement is logged and has no effect (`runSQL` resolves anyway). -/
def runCreate (E : Nat → Bool) (i : Nat) (n : String) (s : Store) : Store :=
  if E i then s else createTable s n

/-- `tables()` from src/index.js: if the memoized flag is set, return
immediately; otherwise run the five CREATE statements in the fixed order
contents, spatial_ref_sys, tile_matrix, tile_matrix_set, tiles, then set
the flag and resolve true — even when some statements errored. -/
def tables (E : Nat → Bool) (s : Store) : Store × Bool :=
  if s.tableFlag then (s, true)
  else
    let s1 := runCreate E 0 "gpkg_contents" s
    let s2 := runCreate E 1 "gpkg_spatial_ref_sys" s1
    let s3 := runCreate E 2 "gpkg_tile_matrix" s2
    let s4 := runCreate E 3 "gpkg_tile_matrix_set" s3
    let s5 := runCreate E 4 "tiles" s4
    ({ s5 with tableFlag := true }, true)

/-- The `if (!this._table) await this.tables()` guard at the head of
`update`, `save`, `delete` and `findOne`. -/
def ensure (E : Nat → Bool) (s : Store) : Store :=
  if s.tableFlag then s else (tables E s).fst

/-- The WHERE clause `tile_column=? AND tile_row=? AND zoom_level=?`. -/
def matchesTile (r : TileRow) (t : Tile) : Bool :=
  r.tile_column == t.1 && r.tile_row == t.2.1 && r.zoom_level == t.2.2

/-- `save(tile, image)` from src/index.js: ensure schema, then INSERT the
row `(x, y, z, image)` into `tiles` (append; no uniqueness check).  The
INSERT errors iff `eIns`; `runSQL` swallows the error, and `save` returns
true unconditionally. -/
def save (Et : Nat → Bool) (eIns : Bool) (s : Store) (t : Tile) (image : Bytes) :
    Store × Bool :=
  let s := ensure Et s
  let s := if eIns then s
    else { s with tiles := s.tiles ++ [⟨t.1, t.2.1, t.2.2, image⟩] }
  (s, true)

/-- `delete(tile)` from src/index.js: ensure schema, then DELETE every row
of `tiles` matching the triple.  The DELETE errors iff `eDel`; `runSQL`
swallows the error and `delete` returns true unconditionally. -/
def delete (Et : Nat → Bool) (eDel : Bool) (s : Store) (t : Tile) :
    Store × Bool :=
  let s := ensure Et s
  let s := if eDel then s
    else { s with tiles := s.tiles.filter (fun r => ! matchesTile r t) }
  (s, true)

/-- `findOne(tile)` from src/index.js: ensure schema, then `db.get` a
single row matching the triple — with no ORDER BY, SQLite's full scan
yields the first matching row in rowid (insertion) order.  On a statement
error `getSQL` logs and resolves `undefined`.  Returns `row.tile_data`
when a row was found, `undefined` (here `none`) otherwise. -/
def findOne (Et : Nat → Bool) (eGet : Bool) (s : Store) (t : Tile) :
    Store × Option Bytes :=
  let s := ensure Et s
  let row := if eGet then none else s.tiles.find? (fun r => matchesTile r t)
  (s, row.map TileRow.tile_data)

/-- Input metadata object of `update`: any field may be omitted
(`none`); a present field may still be a falsy JS value (`""` / `0`). -/
structure Metadata where
  name : Option String := none
  descr : Option String := none
  bounds : Option BBox := none
  minzoom : Option Nat := none
  maxzoom : Option Nat := none
deriving DecidableEq, Repr

/-- JS `metadata.field || default` for a string field: `undefined` and the
falsy `""` both resolve to the default. -/
def resolveStr (v : Option String) (d : String) : String :=
  match v with
  | none => d
  | some s => if s = "" then d else s

/-- JS `metadata.field || default` for a numeric field: `undefined` and
the falsy `0` both resolve to the default. -/
def resolveNat (v : Option Nat) (d : Nat) : Nat :=
  match v with
  | none => d
  | some n => if n = 0 then d else n

/-- JS `metadata.bounds || default`: an array is always truthy, so only an
omitted bounds resolves to the default. -/
def resolveBBox (v : Option BBox) (d : BBox) : BBox :=
  v.getD d

/-- The default full-world bounds `[-180, -85, 180, 85]`. -/
def worldBounds : BBox := ⟨-180, -85, 180, 85⟩

/-- Modelled from the spec: well-known-text of the WGS84 projection
(`projections/wgs84.proj` is not under src/; its exact text is opaque). -/
def wgs84Def : String := "WGS84-WKT"

/-- Modelled from the spec: well-known-text of the Web Mercator projection
(`projections/web-mercator.proj` is not under src/). -/
def webMercatorDef : String := "WebMercator-WKT"

/-- The four fixed rows reinserted into `gpkg_spatial_ref_sys` by
`update`, in insertion order (srs ids -1, 0, 1, 2). -/
def fixedSrsRows : List SrsRow :=
  [⟨"Undefined Cartesian Coordinate Reference System", -1, "NONE", -1,
      "undefined", "Undefined Cartesian coordinate reference system"⟩,
   ⟨"Undefined Geographic Coordinate Reference System", 0, "NONE", -1,
      "undefined", "Undefined geographic coordinate reference system"⟩,
   ⟨"World Geodetic System (WGS) 1984", 1, "EPSG", 4326, wgs84Def,
      "World Geodetic System 1984"⟩,
   ⟨"Web Mercator", 2, "EPSG", 3857, webMercatorDef, "Pseudo Web Mercator"⟩]

/-- The single `gpkg_contents` row inserted by `update`
(srs_id hard-coded to 2, bounds in meters). -/
def contentsRow (name descr lastChange : String) (bm : BBox) : ContentsRow :=
  ⟨name, "tiles", name, descr, lastChange, bm.west, bm.south, bm.east,
    bm.north, 2⟩

/-- The `gpkg_tile_matrix` row inserted at loop position `i` of `update`:
the source iterates `for (const index in zooms)` over
`zooms = mercator.range(minzoom, maxzoom + 1)`, so the row's zoom is
`minzoom + i` while `matrix = Math.pow(2, index)` uses the loop *index*,
giving matrix dimensions `2 ^ i`. -/
def tileMatrixRowAt (name : String) (minzoom : Nat) (resolution : Nat → ℚ)
    (i : Nat) : TileMatrixRow :=
  ⟨name, minzoom + i, 2 ^ i, 2 ^ i, 256, 256, resolution (minzoom + i),
    resolution (minzoom + i)⟩

/-- The single `gpkg_tile_matrix_set` row inserted by `update`
(srs_id hard-coded to 2, bounds in meters). -/
def tileMatrixSetRow (name : String) (bm : BBox) : TileMatrixSetRow :=
  ⟨name, 2, bm.west, bm.south, bm.east, bm.north⟩

/-- The metadata object resolved and returned by `update`: exactly the
fields name, description, bounds, boundsMeters, lastChange, minzoom,
maxzoom. -/
structure ResolvedMetadata where
  name : String
  descr : String
  bounds : BBox
  boundsMeters : BBox
  lastChange : String
  minzoom : Nat
  maxzoom : Nat
deriving DecidableEq, Repr

/-- `update(metadata)` from src/unnamed/part_002 (the current
implementation, matching index.d.ts: it also takes `bounds` and
`minzoom`).  Ensure schema; resolve each field with `||` defaults;
convert bounds to meters via the geodesic utility `bboxToMeters`; then
for each of the four metadata tables DELETE all rows and reinsert.
`mercator.range(minzoom, maxzoom + 1)` enumerates the zooms
`minzoom .. maxzoom`; the loop inserts one `gpkg_tile_matrix` row per
zoom with matrix dimensions `2 ^ index` (see `tileMatrixRowAt`).
Statement `i` of the sequence errors iff `E i` (deletes are statements
0, 5, 7 and `8 + n`; an errored statement has no effect); `update`
resolves with the resolved metadata object regardless of errors. -/
def update (E : Nat → Bool) (Et : Nat → Bool) (bboxToMeters : BBox → BBox)
    (resolution : Nat → ℚ) (now : String) (metadata : Metadata) (s : Store) :
    Store × ResolvedMetadata :=
  let s := ensure Et s
  let name := resolveStr metadata.name "tiles"
  let descr := resolveStr metadata.descr "OGC GeoPackage"
  let bounds := resolveBBox metadata.bounds worldBounds
  let boundsMeters := bboxToMeters bounds
  let lastChange := now
  let minzoom := resolveNat metadata.minzoom 0
  let maxzoom := resolveNat metadata.maxzoom 19
  let s := if E 0 then s else { s with srs := [] }
  let s := if E 1 then s else { s with srs := s.srs ++ [fixedSrsRows.get ⟨0, by decide⟩] }
  let s := if E 2 then s else { s with srs := s.srs ++ [fixedSrsRows.get ⟨1, by decide⟩] }
  let s := if E 3 then s else { s with srs := s.srs ++ [fixedSrsRows.get ⟨2, by decide⟩] }
  let s := if E 4 then s else { s with srs := s.srs ++ [fixedSrsRows.get ⟨3, by decide⟩] }
  let s := if E 5 then s else { s with contents := [] }
  let s := if E 6 then s
    else { s with contents := s.contents ++ [contentsRow name descr lastChange boundsMeters] }
  let s := if E 7 then s else { s with tile_matrix := [] }
  let n := (maxzoom + 1) - minzoom
  let inserted := (List.range n).filterMap (fun i =>
    if E (8 + i) then none else some (tileMatrixRowAt name minzoom resolution i))
  let s := { s with tile_matrix := s.tile_matrix ++ inserted }
  let s := if E (8 + n) then s else { s with tile_matrix_set := [] }
  let s := if E (9 + n) then s
    else { s with tile_matrix_set := s.tile_matrix_set ++ [tileMatrixSetRow name boundsMeters] }
  (s, ⟨name, descr, bounds, boundsMeters, lastChange, minzoom, maxzoom⟩)

/-- The no-error oracle: the happy path where the engine reports no
statement error. -/
def noErr : Nat → Bool := fun _ => false

/-- `tables()` on the happy path. -/
def tablesOk (s : Store) : Store × Bool := tables noErr s

/-- `save` on the happy path. -/
def saveOk (s : Store) (t : Tile) (image : Bytes) : Store × Bool :=
  save noErr false s t image

/-- `delete` on the happy path. -/
def deleteOk (s : Store) (t : Tile) : Store × Bool :=
  delete noErr false s t

/-- `findOne` on the happy path. -/
def findOneOk (s : Store) (t : Tile) : Store × Option Bytes :=
  findOne noErr false s t

/-- `update` on the happy path. -/
def updateOk (bboxToMeters : BBox → BBox) (resolution : Nat → ℚ)
    (now : String) (metadata : Metadata) (s : Store) : Store × ResolvedMetadata :=
  update noErr noErr bboxToMeters resolution now metadata s

end GeoPackage

namespace GeoPackage

/-- One iterate of the schema-bootstrap operation: the state after one
`tables()` call on the happy path. -/
def tablesStep (s : Store) : Store := (tablesOk s).fst

/-- Number of SQL statements a `tables()` call issues on store `s`: five
CREATE statements when the memoized flag is unset, none when it is set
(the early `if (this._table) return true`). -/
def tablesStmtCount (s : Store) : Nat := if s.tableFlag then 0 else 5

theorem createTable_tiles (s : Store) (n : String) : (createTable s n).tiles = s.tiles := by
  unfold createTable; split <;> rfl

theorem runCreate_tiles (E : Nat → Bool) (i : Nat) (n : String) (s : Store) :
    (runCreate E i n s).tiles = s.tiles := by
  unfold runCreate; split
  · rfl
  · exact createTable_tiles s n

theorem tables_fst_tiles (E : Nat → Bool) (s : Store) : (tables E s).fst.tiles = s.tiles := by
  unfold tables; split
  · rfl
  · simp only [runCreate_tiles]

theorem ensure_tiles (E : Nat → Bool) (s : Store) : (ensure E s).tiles = s.tiles := by
  unfold ensure; split
  · rfl
  · exact tables_fst_tiles E s

theorem tables_fst_flag (E : Nat → Bool) (s : Store) : (tables E s).fst.tableFlag = true := by
  unfold tables; split
  · next h => exact h
  · rfl

theorem ensure_flag (E : Nat → Bool) (s : Store) : (ensure E s).tableFlag = true := by
  unfold ensure; split
  · next h => exact h
  · exact tables_fst_flag E s

theorem ensure_of_flag (E : Nat → Bool) (s : Store) (h : s.tableFlag = true) :
    ensure E s = s := by
  unfold ensure; rw [if_pos h]

theorem find?_append_of_none {p : TileRow → Bool} {l₁ : List TileRow} (l₂ : List TileRow)
    (h : l₁.find? p = none) : (l₁ ++ l₂).find? p = l₂.find? p := by
  induction l₁ with
  | nil => rfl
  | cons a t ih =>
    rw [List.find?_cons] at h
    cases hp : p a with
    | true => rw [hp] at h; exact absurd h (by simp)
    | false =>
      rw [hp] at h
      rw [List.cons_append, List.find?_cons, hp]
      exact ih h

theorem find?_filter_not (p : TileRow → Bool) (l : List TileRow) :
    (l.filter (fun r => ! p r)).find? p = none := by
  induction l with
  | nil => rfl
  | cons a t ih =>
    rw [List.filter_cons]
    cases hp : p a with
    | true => simp only [hp, Bool.not_true, Bool.false_eq_true, if_false]; exact ih
    | false =>
      simp only [hp, Bool.not_false, if_true]
      rw [List.find?_cons, hp]
      exact ih

theorem filterMap_some_eq_map {α β : Type} (f : α → β) (l : List α) :
    l.filterMap (fun i => some (f i)) = l.map f := by
  induction l with
  | nil => rfl
  | cons a t ih => simp [List.filterMap_cons, ih]

/-- Normal form of the happy-path `update`: the four metadata tables are
fully replaced (srs gets the four fixed rows, contents and
tile_matrix_set one row each, tile_matrix one row per enumerated zoom),
while `existingTables`, `tiles` and the flag come from the schema-ensure
step alone. -/
theorem updateOk_fst (bbm : BBox → BBox) (res : Nat → ℚ) (now : String)
    (m : Metadata) (s : Store) :
    (updateOk bbm res now m s).fst =
      { ensure noErr s with
        srs := fixedSrsRows
        contents := [contentsRow (resolveStr m.name "tiles")
          (resolveStr m.descr "OGC GeoPackage") now
          (bbm (resolveBBox m.bounds worldBounds))]
        tile_matrix := (List.range ((resolveNat m.maxzoom 19 + 1) - resolveNat m.minzoom 0)).map
          (tileMatrixRowAt (resolveStr m.name "tiles") (resolveNat m.minzoom 0) res)
        tile_matrix_set := [tileMatrixSetRow (resolveStr m.name "tiles")
          (bbm (resolveBBox m.bounds worldBounds))] } := by
  unfold updateOk update noErr
  simp only [Bool.false_eq_true, if_false, filterMap_some_eq_map, List.nil_append,
    List.append_nil]
  rfl

/-- C1 counterexample: the save/findOne round-trip fails as universally
stated.  On a store already holding payload `[1]` at triple (0,0,0),
saving payload `[2]` at the same triple and then calling `findOne`
returns the earlier payload `[1]` (the SELECT has no ORDER BY and yields
the first row in insertion order), not the payload just saved. -/
theorem save_findOne_cex :
    (findOneOk (saveOk (saveOk emptyStore ((0:Int), (0:Int), (0:Int)) [1]).fst
        ((0:Int), (0:Int), (0:Int)) [2]).fst ((0:Int), (0:Int), (0:Int))).snd ≠ some [2] := by
  decide

/-- C1 (amended): for every tile triple and byte payload, `save` followed
by `findOne` on the same store returns the original payload, provided the
store contains no prior row for that triple (as on a fresh store). -/
theorem save_findOne_roundtrip (s : Store) (t : Tile) (img : Bytes)
    (h : s.tiles.find? (fun r => matchesTile r t) = none) :
    (findOneOk (saveOk s t img).fst t).snd = some img := by
  simp only [findOneOk, findOne, saveOk, save, noErr, Bool.false_eq_true, if_false, ensure_tiles]
  rw [find?_append_of_none _ h]
  simp [matchesTile]

/-- C1 witness: the round-trip at triple (0,0,0) with payload [7] on the
fresh store. -/
theorem save_findOne_roundtrip_witness :
    (emptyStore.tiles.find? (fun r => matchesTile r ((0:Int), (0:Int), (0:Int))) = none)
    ∧ (findOneOk (saveOk emptyStore ((0:Int), (0:Int), (0:Int)) [7]).fst
        ((0:Int), (0:Int), (0:Int))).snd = some [7] :=
  ⟨by decide, save_findOne_roundtrip emptyStore ((0:Int), (0:Int), (0:Int)) [7] (by decide)⟩

/-- C2: for every store and tile triple, `delete` followed by `findOne`
on the same triple returns the absent-marker (`undefined`, here `none`),
regardless of how many rows previously matched the triple. -/
theorem delete_findOne_none (s : Store) (t : Tile) :
    (findOneOk (deleteOk s t).fst t).snd = none := by
  simp only [findOneOk, findOne, deleteOk, delete, noErr, Bool.false_eq_true, if_false,
    ensure_tiles]
  rw [find?_filter_not]
  rfl

/-- C3 counterexample: with minzoom 1 and maxzoom 2 the inserted
`gpkg_tile_matrix` rows have matrix dimensions 1 and 2 — not 2 and 4 —
because the loop computes `Math.pow(2, index)` with the loop index of
`for (const index in zooms)`, not with the zoom; so it is false that
every row satisfies matrix_width = 2 ^ zoom_level. -/
theorem update_tile_matrix_cex :
    ((updateOk id (fun _ => 0) "" ⟨none, none, none, some 1, some 2⟩ emptyStore).fst.tile_matrix.map
        (fun r => (r.zoom_level, r.matrix_width)) = [(1, 1), (2, 2)])
    ∧ ¬ (∀ r ∈ (updateOk id (fun _ => 0) "" ⟨none, none, none, some 1, some 2⟩
          emptyStore).fst.tile_matrix, r.matrix_width = 2 ^ r.zoom_level) := by
  decide

/-- C3 (amended): for every minzoom ≤ maxzoom, `update` inserts exactly
one `gpkg_tile_matrix` row per integer zoom in [minzoom, maxzoom], and
the row for zoom z has matrix_width = matrix_height = 2 ^ (z − minzoom);
in particular minzoom 0, maxzoom 2 yields exactly 3 rows (zooms 0, 1, 2)
with matrix dimensions 1, 2 and 4. -/
theorem update_tile_matrix (bbm : BBox → BBox) (res : Nat → ℚ) (now : String)
    (m : Metadata) (s : Store)
    (h : resolveNat m.minzoom 0 ≤ resolveNat m.maxzoom 19) :
    ((updateOk bbm res now m s).fst.tile_matrix.map (fun r => r.zoom_level)
      = (List.range (resolveNat m.maxzoom 19 - resolveNat m.minzoom 0 + 1)).map
          (fun i => resolveNat m.minzoom 0 + i))
    ∧ (∀ r ∈ (updateOk bbm res now m s).fst.tile_matrix,
        r.matrix_width = 2 ^ (r.zoom_level - resolveNat m.minzoom 0)
        ∧ r.matrix_height = r.matrix_width)
    ∧ ((updateOk bbm res now ⟨none, none, none, some 0, some 2⟩ s).fst.tile_matrix.map
        (fun r => (r.zoom_level, r.matrix_width, r.matrix_height))
      = [(0, 1, 1), (1, 2, 2), (2, 4, 4)]) := by
  refine ⟨?_, ?_, ?_⟩
  · rw [updateOk_fst]
    simp only [List.map_map]
    rw [show resolveNat m.maxzoom 19 + 1 - resolveNat m.minzoom 0
        = resolveNat m.maxzoom 19 - resolveNat m.minzoom 0 + 1 by omega]
    simp [Function.comp, tileMatrixRowAt]
  · rw [updateOk_fst]
    intro r hr
    simp only [List.mem_map, List.mem_range] at hr
    obtain ⟨i, _, rfl⟩ := hr
    simp [tileMatrixRowAt]
  · rw [updateOk_fst]
    rfl

/-- C3 witness: minzoom 1, maxzoom 2 — two rows at zooms 1 and 2 with
matrix dimensions 2 ^ (z − 1). -/
theorem update_tile_matrix_witness :
    (resolveNat (some 1) 0 ≤ resolveNat (some 2) 19)
    ∧ (((updateOk id (fun _ => 0) "w" ⟨none, none, none, some 1, some 2⟩
          emptyStore).fst.tile_matrix.map (fun r => r.zoom_level)
        = (List.range (resolveNat (some 2) 19 - resolveNat (some 1) 0 + 1)).map
            (fun i => resolveNat (some 1) 0 + i))
      ∧ (∀ r ∈ (updateOk id (fun _ => 0) "w" ⟨none, none, none, some 1, some 2⟩
            emptyStore).fst.tile_matrix,
          r.matrix_width = 2 ^ (r.zoom_level - resolveNat (some 1) 0)
          ∧ r.matrix_height = r.matrix_width)
      ∧ ((updateOk id (fun _ => 0) "w" ⟨none, none, none, some 0, some 2⟩
            emptyStore).fst.tile_matrix.map
            (fun r => (r.zoom_level, r.matrix_width, r.matrix_height))
        = [(0, 1, 1), (1, 2, 2), (2, 4, 4)])) :=
  ⟨by decide, update_tile_matrix id (fun _ => 0) "w" ⟨none, none, none, some 1, some 2⟩
    emptyStore (by decide)⟩

/-- C4: `update` is destructive-then-constructive on the four metadata
tables — afterwards `gpkg_spatial_ref_sys` holds exactly the four fixed
rows, `gpkg_contents` and `gpkg_tile_matrix_set` exactly one freshly
built row each, all independent of their prior contents — while the
`tiles` table is unchanged; consequently two successive `update` calls
leave the same final state as a single call with the second argument. -/
theorem update_destructive (bbm : BBox → BBox) (res : Nat → ℚ) (now now2 : String)
    (m m2 : Metadata) (s : Store) :
    ((updateOk bbm res now m s).fst.tiles = s.tiles)
    ∧ ((updateOk bbm res now m s).fst.srs = fixedSrsRows)
    ∧ ((updateOk bbm res now m s).fst.contents
        = [contentsRow (resolveStr m.name "tiles") (resolveStr m.descr "OGC GeoPackage") now
            (bbm (resolveBBox m.bounds worldBounds))])
    ∧ ((updateOk bbm res now m s).fst.tile_matrix_set
        = [tileMatrixSetRow (resolveStr m.name "tiles")
            (bbm (resolveBBox m.bounds worldBounds))])
    ∧ (updateOk bbm res now2 m2 (updateOk bbm res now m s).fst).fst
        = (updateOk bbm res now2 m2 s).fst := by
  refine ⟨?_, ?_, ?_, ?_, ?_⟩
  · rw [updateOk_fst]; exact ensure_tiles noErr s
  · rw [updateOk_fst]
  · rw [updateOk_fst]
  · rw [updateOk_fst]
  · have h1 := updateOk_fst bbm res now m s
    have h2 : (updateOk bbm res now m s).fst.tableFlag = true := by
      rw [h1]; exact ensure_flag noErr s
    rw [updateOk_fst bbm res now2 m2 (updateOk bbm res now m s).fst,
      ensure_of_flag noErr _ h2, h1, updateOk_fst bbm res now2 m2 s]

/-- C5: `update` resolves omitted fields to the defaults name "tiles",
description "OGC GeoPackage", bounds [-180, -85, 180, 85], minzoom 0 and
maxzoom 19, converts the bounds to meters via the geodesic utility
`bboxToMeters`, and returns the resolved metadata object with exactly the
fields name, description, bounds, boundsMeters, lastChange, minzoom,
maxzoom. -/
theorem update_resolved (bbm : BBox → BBox) (res : Nat → ℚ) (now : String) (s : Store) :
    ((updateOk bbm res now {} s).snd
      = ⟨"tiles", "OGC GeoPackage", worldBounds, bbm worldBounds, now, 0, 19⟩)
    ∧ ∀ m : Metadata, (updateOk bbm res now m s).snd
      = ⟨resolveStr m.name "tiles", resolveStr m.descr "OGC GeoPackage",
          resolveBBox m.bounds worldBounds, bbm (resolveBBox m.bounds worldBounds), now,
          resolveNat m.minzoom 0, resolveNat m.maxzoom 19⟩ :=
  ⟨rfl, fun _ => rfl⟩

/-- C6 counterexample: even when the engine reports an error for the
INSERT (`eIns = true`), `save` does not return false — `runSQL` merely
logs the error and resolves, and `save` returns true unconditionally. -/
theorem save_error_cex :
    ¬ ((save noErr true emptyStore ((0:Int), (0:Int), (0:Int)) [1]).snd = false) := by
  decide

/-- C6 (amended): `save` always returns true — an INSERT failure is
logged, not raised, and does not change the return value — and a
duplicate (x, y, z) triple is not an error and also yields true. -/
theorem save_always_true (Et : Nat → Bool) (e : Bool) (s : Store) (t : Tile) (img : Bytes) :
    ((save Et e s t img).snd = true)
    ∧ (saveOk (saveOk s t img).fst t img).snd = true :=
  ⟨rfl, rfl⟩

/-- C7: for every error behavior of the engine, each operation resolves
normally — `tables`, `save` and `delete` resolve true, an errored SELECT
makes `findOne` resolve the absent-marker, `update` resolves the same
metadata object as on the happy path — and `tables` still sets the
schema-ready flag to true after its five-statement sequence even when
statements errored. -/
theorem errors_never_propagate (E Et : Nat → Bool) (e1 e2 : Bool) (bbm : BBox → BBox)
    (res : Nat → ℚ) (now : String) (m : Metadata) (s : Store) (t : Tile) (img : Bytes) :
    ((tables E s).snd = true)
    ∧ ((tables E s).fst.tableFlag = true)
    ∧ ((save Et e1 s t img).snd = true)
    ∧ ((delete Et e2 s t).snd = true)
    ∧ ((findOne Et true s t).snd = none)
    ∧ ((update E Et bbm res now m s).snd = (updateOk bbm res now m s).snd) := by
  refine ⟨?_, tables_fst_flag E s, rfl, rfl, rfl, rfl⟩
  unfold tables; split <;> rfl

/-- C8: `delete` removes every row of `tiles` whose triple matches — all
duplicates, not just one — and resolves true, in particular also when
zero rows matched. -/
theorem delete_removes_all (s : Store) (t : Tile) :
    ((deleteOk s t).fst.tiles = s.tiles.filter (fun r => ! matchesTile r t))
    ∧ (deleteOk s t).snd = true := by
  constructor
  · simp only [deleteOk, delete, noErr, Bool.false_eq_true, if_false, ensure_tiles]
  · rfl

/-- C9: `tables` is idempotent — for every N ≥ 1, N calls have the same
effect on the store as one call; after the first call the memoized flag
makes further calls issue zero statements and return true immediately,
and no call errors even though the tables already exist (the schema
statements are CREATE TABLE IF NOT EXISTS). -/
theorem tables_idempotent (s : Store) (n : Nat) (h : 1 ≤ n) :
    (tablesStep^[n] s = tablesStep s)
    ∧ tablesStmtCount (tablesStep s) = 0
    ∧ (tablesOk (tablesStep s)).snd = true := by
  have hflag : ∀ st : Store, (tablesStep st).tableFlag = true :=
    fun st => tables_fst_flag noErr st
  have hidem : ∀ st, tablesStep (tablesStep st) = tablesStep st := by
    intro st
    show (tables noErr (tablesStep st)).fst = tablesStep st
    unfold tables
    rw [if_pos (hflag st)]
  refine ⟨?_, ?_, ?_⟩
  · obtain ⟨k, rfl⟩ := Nat.exists_eq_add_of_le h
    rw [Nat.add_comm, Function.iterate_add_apply, Function.iterate_one]
    clear h
    induction k with
    | zero => rfl
    | succ j ih => rw [Function.iterate_succ_apply, hidem, ih]
  · unfold tablesStmtCount
    rw [if_pos (hflag s)]
  · show (tables noErr (tablesStep s)).snd = true
    unfold tables
    rw [if_pos (hflag s)]

/-- C9 witness: two calls on the fresh store equal one call; the second
call issues no statements and returns true. -/
theorem tables_idempotent_witness :
    (1 ≤ 2)
    ∧ ((tablesStep^[2] emptyStore = tablesStep emptyStore)
      ∧ tablesStmtCount (tablesStep emptyStore) = 0
      ∧ (tablesOk (tablesStep emptyStore)).snd = true) :=
  ⟨by decide, tables_idempotent emptyStore 2 (by decide)⟩

/-- C10: because `update` resolves fields with JS truthiness (`||`),
every falsy argument is replaced by the default: maxzoom 0 resolves to
19, an empty-string name to "tiles" and an empty-string description to
"OGC GeoPackage"; consequently no metadata argument yields a resolved
maxzoom of 0. -/
theorem update_falsy_defaults (bbm : BBox → BBox) (res : Nat → ℚ) (now : String) (s : Store) :
    ((updateOk bbm res now ⟨some "", some "", none, none, some 0⟩ s).snd.maxzoom = 19)
    ∧ ((updateOk bbm res now ⟨some "", some "", none, none, some 0⟩ s).snd.name = "tiles")
    ∧ ((updateOk bbm res now ⟨some "", some "", none, none, some 0⟩ s).snd.descr
        = "OGC GeoPackage")
    ∧ ∀ m : Metadata, (updateOk bbm res now m s).snd.maxzoom ≠ 0 := by
  refine ⟨rfl, rfl, rfl, ?_⟩
  intro m
  show resolveNat m.maxzoom 19 ≠ 0
  cases m.maxzoom with
  | none => decide
  | some k =>
    show (if k = 0 then 19 else k) ≠ 0
    split
    · decide
    · next hk => exact hk

end GeoPackage
